import Mathlib

/-!
# Verification of the LiveKitAgent tool-calling core

Shallow embedding of the tool coroutines of `src/AIAssistedCustomerHelpDesk.py`
and `src/WebRTCDemooAgent.py`, together with the dispatch/follow-up logic of
the latter, and proofs of the spec claims about them.

Modelling conventions:
* Parsed JSON values are the inductive `Json`; a JSON number is modelled as an
  integer (no claim exercises non-integer numbers).
* An external HTTP exchange is an `HttpOutcome`: either the request itself
  failed (`requests.RequestException` at send time) or a response with a
  status code and a body.  A body of `none` stands for text that is not valid
  JSON, so that `response.json()` raises `requests.exceptions.JSONDecodeError`
  (a `RequestException` subclass in the `requests` versions this code targets).
* `response.raise_for_status()` raises `HTTPError` (a `RequestException`)
  exactly when `400 ≤ status < 600`.
* A Python exception that the source does not catch is a `PyError` value; a
  tool run therefore yields `Except PyError String`.
* Every issued HTTP request is recorded as an `HttpRequest`, including the
  timeout argument passed to `requests` (`none`: the source passes no
  `timeout=` keyword, which is the library default of waiting forever).
-/

inductive Json where
  | null
  | bool (b : Bool)
  | num (n : Int)
  | str (s : String)
  | arr (elems : List Json)
  | obj (fields : List (String × Json))

inductive PyError where
  | keyError (key : String)
  | attributeError (attr : String)
  | typeError
deriving DecidableEq, Repr

inductive Method where
  | post
  | get
deriving DecidableEq, Repr

structure HttpRequest where
  method : Method
  url : String
  bearerToken : Option String
  timeout : Option Nat
  jsonBody : Option Json

inductive HttpOutcome where
  | networkError
  | response (status : Nat) (body : Option Json)

/-- The environment variables the two programs read (`.env.local`). -/
structure Config where
  apiToken : String
  crmCandidateEndpoint : String
  interviewSlotsEndpoint : String
  webhookUrl : String
  crmContactLookupEndpoint : String

/-- The observable effect of one tool coroutine invocation: the value it
returns to its caller (or the uncaught exception it raises), plus the HTTP
requests it issued. -/
structure ToolRun where
  result : Except PyError String
  requests : List HttpRequest

/-- Python `v[key]` on a parsed-JSON value: dict lookup (`KeyError` when the
key is absent), `TypeError` on any non-dict value. -/
def jsonSubscript (v : Json) (key : String) : Except PyError Json :=
  match v with
  | .obj fields =>
      match fields.lookup key with
      | some x => .ok x
      | none => .error (.keyError key)
  | _ => .error .typeError

/-- Python `v.get(key, default)` on a parsed-JSON value: defined on dicts,
`AttributeError` on anything else (lists, strings, numbers have no `.get`). -/
def jsonGet (v : Json) (key : String) (default : Json) : Except PyError Json :=
  match v with
  | .obj fields =>
      match fields.lookup key with
      | some x => .ok x
      | none => .ok default
  | _ => .error (.attributeError "get")

/-- Python `==` between a string and a parsed-JSON value: only an equal
string compares equal. -/
def pyEqStr (s : String) : Json → Bool
  | .str t => t == s
  | _ => false

/-- Python `s in v` for a string `s`: membership (by `==`) for a list,
substring test for a string, key test for a dict, `TypeError` otherwise. -/
def pyMem (s : String) (v : Json) : Except PyError Bool :=
  match v with
  | .arr xs => .ok (xs.any (pyEqStr s))
  | .str t => .ok (decide (s.data <:+: t.data))
  | .obj fields => .ok ((fields.map Prod.fst).contains s)
  | _ => .error .typeError

/-- Python iteration `for x in v`: list elements, characters of a string,
keys of a dict; `TypeError` otherwise. -/
def pyIter (v : Json) : Except PyError (List Json) :=
  match v with
  | .arr xs => .ok xs
  | .str s => .ok (s.data.map fun c => .str (String.singleton c))
  | .obj fields => .ok (fields.map fun kv => .str kv.1)
  | _ => .error .typeError

/-- Python `repr` of a parsed-JSON value (quotes written as `\x27`, braces as
`\x7b`/`\x7d`). -/
def pyRepr : Json → String
  | .null => "None"
  | .bool true => "True"
  | .bool false => "False"
  | .num n => toString n
  | .str s => "\x27" ++ s ++ "\x27"
  | .arr xs =>
      "[" ++ String.intercalate ", " (xs.attach.map fun x => pyRepr x.1) ++ "]"
  | .obj fs =>
      "\x7b" ++ String.intercalate ", "
        (fs.attach.map fun kv => "\x27" ++ kv.1.1 ++ "\x27: " ++ pyRepr kv.1.2) ++ "\x7d"
decreasing_by
  · have := List.sizeOf_lt_of_mem x.2
    simp_wf
    omega
  · have h1 := List.sizeOf_lt_of_mem kv.2
    have h2 : sizeOf kv.1 = 1 + sizeOf kv.1.1 + sizeOf kv.1.2 := by
      cases kv.1
      simp
    simp_wf
    omega

/-- Python `str` of a parsed-JSON value, as used by an f-string: a string
interpolates as itself, everything else as its `repr`. -/
def pyStr : Json → String
  | .str s => s
  | v => pyRepr v

/-!
## The email pattern of `book_appointment`

`re.match(r"[^@]+@[^@]+\.[^@]+", email)`: `re.match` succeeds when some
PREFIX of the string matches the pattern.  The first `[^@]+` cannot cross an
`'@'`, so it necessarily matches the (nonempty) run of characters before the
first `'@'`.  After that `'@'`, backtracking search looks for one or more
non-`'@'` characters, a literal `'.'`, and one further non-`'@'` character.
-/

/-- Does the list start with a character other than `'@'`?  (The trailing
`[^@]+` of the pattern needs exactly one such character.) -/
def headNonAt : List Char → Bool
  | [] => false
  | c :: _ => c != '@'

/-- Backtracking match of `[^@]+\.[^@]+` against a prefix of `cs`; `seen`
records whether at least one non-`'@'` character has been consumed before the
candidate literal `'.'`. -/
def matchTail : Bool → List Char → Bool
  | _, [] => false
  | seen, c :: rest =>
      if c = '.' then (seen && headNonAt rest) || matchTail true rest
      else c != '@' && matchTail true rest

/-- Match of the full pattern `[^@]+@[^@]+\.[^@]+` against a prefix of `cs`;
`seen` records whether at least one character precedes the `'@'`. -/
def matchLocal : Bool → List Char → Bool
  | _, [] => false
  | seen, c :: rest =>
      if c = '@' then seen && matchTail false rest
      else matchLocal true rest

/-- The email validation of `book_appointment`
(`re.match(r"[^@]+@[^@]+\.[^@]+", email)` viewed as a Boolean). -/
def reMatchEmail (s : String) : Bool :=
  matchLocal false s.data

/-!
## The tool coroutines
-/

/-- Embeds `save_candidate_details` of `src/AIAssistedCustomerHelpDesk.py`
(lines 24-60): POST the candidate record to the CRM endpoint with a bearer
token and no timeout; on `RequestException` (network failure, 4xx/5xx via
`raise_for_status`, invalid-JSON body via `response.json()`) return the
retry message; otherwise read `response.json()['candidate']['id']` — any
`KeyError`/`TypeError` there is NOT caught — and return the confirmation. -/
def save_candidate_details (cfg : Config) (email name : String)
    (http : HttpOutcome) : ToolRun :=
  let req : HttpRequest :=
    { method := .post
      url := cfg.crmCandidateEndpoint
      bearerToken := some cfg.apiToken
      timeout := none
      jsonBody := some (.obj
        [("email", .str email), ("name", .str name),
         ("tags", .arr [.str "new_candidate"])]) }
  let failMsg := "Failed to save candidate details. Please try again."
  match http with
  | .networkError => { result := .ok failMsg, requests := [req] }
  | .response status body =>
      if 400 ≤ status ∧ status < 600 then
        { result := .ok failMsg, requests := [req] }
      else
        match body with
        | none => { result := .ok failMsg, requests := [req] }
        | some j =>
            match jsonSubscript j "candidate" with
            | .error e => { result := .error e, requests := [req] }
            | .ok c =>
                match jsonSubscript c "id" with
                | .error e => { result := .error e, requests := [req] }
                | .ok idv =>
                    { result := .ok ("Candidate details saved with ID: "
                        ++ pyStr idv ++ ".")
                      requests := [req] }

/-- Embeds `ask_hr_questions` of `src/AIAssistedCustomerHelpDesk.py`
(lines 62-88): only prints its arguments, performs no I/O. -/
def ask_hr_questions (experience skills previous_companies : String) : ToolRun :=
  { result := .ok "HR questions answered successfully.", requests := [] }

/-- Embeds `schedule_interview` of `src/AIAssistedCustomerHelpDesk.py`
(lines 90-123): POST `{email, slot}` to the interview-slots endpoint with a
bearer token and no timeout; the response body is never read. -/
def schedule_interview (cfg : Config) (email slot : String)
    (http : HttpOutcome) : ToolRun :=
  let req : HttpRequest :=
    { method := .post
      url := cfg.interviewSlotsEndpoint
      bearerToken := some cfg.apiToken
      timeout := none
      jsonBody := some (.obj [("email", .str email), ("slot", .str slot)]) }
  let failMsg := "Failed to schedule the interview. Please try again."
  match http with
  | .networkError => { result := .ok failMsg, requests := [req] }
  | .response status _ =>
      if 400 ≤ status ∧ status < 600 then
        { result := .ok failMsg, requests := [req] }
      else
        { result := .ok ("Interview scheduled successfully for " ++ slot ++ ".")
          requests := [req] }

/-- Embeds `book_appointment` of `src/WebRTCDemooAgent.py` (lines 26-58):
reject the email before any network call when the regex does not match;
otherwise POST `{email, name}` to the webhook URL (plain JSON headers, no
bearer token, no timeout); the response body is never read. -/
def book_appointment (cfg : Config) (email name : String)
    (http : HttpOutcome) : ToolRun :=
  if reMatchEmail email = false then
    { result := .ok "The email address seems incorrect. Please provide a valid one."
      requests := [] }
  else
    let req : HttpRequest :=
      { method := .post
        url := cfg.webhookUrl
        bearerToken := none
        timeout := none
        jsonBody := some (.obj [("email", .str email), ("name", .str name)]) }
    match http with
    | .networkError =>
        { result := .ok "There was an error booking your appointment. Please try again later."
          requests := [req] }
    | .response status _ =>
        if 400 ≤ status ∧ status < 600 then
          { result := .ok "There was an error booking your appointment. Please try again later."
            requests := [req] }
        else
          { result := .ok ("Appointment booking link sent to " ++ email
              ++ ". Please check your email.")
            requests := [req] }

/-- The loop body of `check_appointment_status` (lines 79-82): walk the
contacts; `contact.get('tags', [])`, then the Python `in` test against the
marker tag; first hit returns the booked message, exhaustion the not-booked
message. -/
def scanContacts : List Json → Except PyError String
  | [] => .ok "The user has not yet booked an appointment. Please offer him help"
  | contact :: rest =>
      match jsonGet contact "tags" (.arr []) with
      | .error e => .error e
      | .ok tags =>
          match pyMem "livekit_appointment_booked" tags with
          | .error e => .error e
          | .ok true => .ok "The user has successfully booked the appointment."
          | .ok false => scanContacts rest

/-- The body-processing step of `check_appointment_status` (lines 77-82):
`data.get('contacts', [])`, iterate, scan. -/
def checkContacts (data : Json) : Except PyError String :=
  match jsonGet data "contacts" (.arr []) with
  | .error e => .error e
  | .ok v =>
      match pyIter v with
      | .error e => .error e
      | .ok contacts => scanContacts contacts

/-- Embeds `check_appointment_status` of `src/WebRTCDemooAgent.py`
(lines 60-86): GET the CRM contact-lookup endpoint with the email as a query
parameter, bearer token, no timeout, no body; on `RequestException` return
the error message; otherwise classify `response.json()` with
`checkContacts` — shape errors there (`AttributeError`/`TypeError`) are NOT
caught. -/
def check_appointment_status (cfg : Config) (email : String)
    (http : HttpOutcome) : ToolRun :=
  let req : HttpRequest :=
    { method := .get
      url := cfg.crmContactLookupEndpoint ++ "?email=" ++ email
      bearerToken := some cfg.apiToken
      timeout := none
      jsonBody := none }
  let failMsg := "Error checking the appointment status."
  match http with
  | .networkError => { result := .ok failMsg, requests := [req] }
  | .response status body =>
      if 400 ≤ status ∧ status < 600 then
        { result := .ok failMsg, requests := [req] }
      else
        match body with
        | none => { result := .ok failMsg, requests := [req] }
        | some data => { result := checkContacts data, requests := [req] }

/-!
## Dispatch: `on_function_calls_finished` and the follow-up scheduler

`src/WebRTCDemooAgent.py` lines 127-158.
-/

/-- One completed tool call as seen by the `function_calls_finished` handler:
the LLM-supplied arguments (`call_info.arguments`) and the string the tool
returned. -/
structure CalledFunction where
  arguments : List (String × String)
  result : String
deriving DecidableEq, Repr

/-- Python `arguments.get(key)` on the string-valued argument dict. -/
def argGet (args : List (String × String)) (key : String) : Option String :=
  args.lookup key

/-- Python truthiness of `arguments.get(key)`: `None` and the empty string
are falsy. -/
def truthy : Option String → Option String
  | some s => if s = "" then none else some s
  | none => none

/-- The tasks the handler spawns: `_answer(user_msg, ...)` and/or
`follow_up_appointment(email)`. -/
structure DispatchActions where
  answerMsg : Option String
  followUpEmail : Option String
deriving DecidableEq, Repr

/-- Embeds `on_function_calls_finished` (lines 140-150): on a nonempty list
it reads `user_msg` and `email` out of the FIRST call's arguments and spawns
a task for each truthy one.  The call results are never consulted. -/
def on_function_calls_finished (called : List CalledFunction) : DispatchActions :=
  match called with
  | [] => { answerMsg := none, followUpEmail := none }
  | cf :: _ =>
      { answerMsg := truthy (argGet cf.arguments "user_msg")
        followUpEmail := truthy (argGet cf.arguments "email") }

/-- A pending `follow_up_appointment` task: the email it will check and the
seconds left of its `asyncio.sleep(20)`. -/
structure FollowUp where
  email : String
  remaining : Nat
deriving DecidableEq, Repr

/-- The session-level state relevant to the follow-up lifecycle: whether the
room is still `CONN_CONNECTED`, the pending follow-up tasks, and the emails
whose delayed status check has already run. -/
structure SessionState where
  connected : Bool
  pending : List FollowUp
  fired : List String
deriving DecidableEq, Repr

/-- Discrete events of the session, at one-second granularity (matching the
`asyncio.sleep` units of the source). -/
inductive SessionEvent where
  | schedule (email : String)
  | disconnect
  | tick
deriving DecidableEq, Repr

/-- One step of the session, modelling the asyncio behaviour of
`entrypoint` (lines 127-158):
* `schedule email` — `asyncio.create_task(follow_up_appointment(email))`,
  a detached task with a 20-second sleep (line 130); the handle is not kept.
* `disconnect` — the room leaves `CONN_CONNECTED`; the `while` loop of
  `entrypoint` (lines 157-158) exits and `entrypoint` returns.  The source
  registers no teardown handler and holds no task registry, so the pending
  tasks are untouched.
* `tick` — one second elapses; every pending sleep advances, and a task whose
  sleep completed runs its status check, whether or not the room is still
  connected (the task body, lines 131-133, never looks at the connection). -/
def sessionStep (s : SessionState) (e : SessionEvent) : SessionState :=
  match e with
  | .schedule email => { s with pending := s.pending ++ [{ email := email, remaining := 20 }] }
  | .disconnect => { s with connected := false }
  | .tick =>
      let advanced := s.pending.map fun f => { f with remaining := f.remaining - 1 }
      { s with
        pending := advanced.filter fun f => f.remaining != 0
        fired := s.fired ++ (advanced.filter fun f => f.remaining == 0).map FollowUp.email }

/-- A fresh session: connected, nothing pending, nothing fired. -/
def initialSession : SessionState :=
  { connected := true, pending := [], fired := [] }

/-- Run a list of session events from the fresh session. -/
def runSession (events : List SessionEvent) : SessionState :=
  events.foldl sessionStep initialSession

/-!
## The ToolExecutor

The validation-and-dispatch step itself lives in the `livekit.agents`
framework; this repository only declares the tools (the decorated signatures)
and their bodies.
-/

/-- The required parameters of each registered tool, as declared by the
`@agents.llm.ai_callable`-decorated signatures of the two source files (all
parameters are annotated strings with no defaults, hence all required).
`check_appointment_status` carries no decorator and is not registered. -/
def toolRequiredParams : String → Option (List String)
  | "save_candidate_details" => some ["email", "name"]
  | "ask_hr_questions" => some ["experience", "skills", "previous_companies"]
  | "schedule_interview" => some ["email", "slot"]
  | "book_appointment" => some ["email", "name"]
  | _ => none

/-- A tool call request produced by the language-understanding layer. -/
structure ToolCallRequest where
  toolName : String
  arguments : List (String × String)
deriving DecidableEq, Repr

inductive Outcome where
  | success
  | failure
deriving DecidableEq, Repr

/-- The result record a tool call always resolves to. -/
structure ToolCallResult where
  toolName : String
  outcome : Outcome
  message : String
deriving DecidableEq, Repr

/-- Modelled from the spec: the user-facing failure templates of §7 — the
strings the source tools return on validation or external-service failure. -/
def failureMessages : List String :=
  ["Failed to save candidate details. Please try again.",
   "Failed to schedule the interview. Please try again.",
   "There was an error booking your appointment. Please try again later.",
   "The email address seems incorrect. Please provide a valid one.",
   "Error checking the appointment status."]

/-- Modelled from the spec: §4.2's classification of a returned message into
`outcome ∈ {success, failure}`. -/
def classify (s : String) : Outcome :=
  if failureMessages.contains s then .failure else .success

/-- Modelled from the spec: the ToolExecutor's
`execute(request) -> ToolCallResult` (§4.2), whose implementation lives in
the external `livekit.agents` framework, not under `src/`.  Validation first:
every required parameter of the matching schema must be present (all
parameters are strings, so presence is the whole type check); on a missing
parameter the call is rejected with `outcome=failure` before any external
I/O.  Otherwise dispatch to the declared tool body (embedded above from the
source) and classify its returned message. -/
def execute (cfg : Config) (req : ToolCallRequest) (http : HttpOutcome) :
    ToolCallResult × List HttpRequest :=
  match toolRequiredParams req.toolName with
  | none => ({ toolName := req.toolName, outcome := .failure, message := "Unknown tool." }, [])
  | some ps =>
      if ps.all fun p => (req.arguments.lookup p).isSome then
        let arg := fun p => (req.arguments.lookup p).getD ""
        let run : ToolRun :=
          if req.toolName = "save_candidate_details" then
            save_candidate_details cfg (arg "email") (arg "name") http
          else if req.toolName = "ask_hr_questions" then
            ask_hr_questions (arg "experience") (arg "skills") (arg "previous_companies")
          else if req.toolName = "schedule_interview" then
            schedule_interview cfg (arg "email") (arg "slot") http
          else
            book_appointment cfg (arg "email") (arg "name") http
        match run.result with
        | .ok s =>
            ({ toolName := req.toolName, outcome := classify s, message := s }, run.requests)
        | .error _ =>
            ({ toolName := req.toolName, outcome := .failure, message := "Internal error." },
             run.requests)
      else
        ({ toolName := req.toolName, outcome := .failure
           message := "A required parameter is missing. Please provide it." }, [])

/-!
## Spec-side predicates (for refinement claims)
-/

/-- The spec's email format, from its words: the string decomposes as
local-part `'@'` domain `'.'` tld with all three parts nonempty
(claim C2, spec §4.2 and §8). -/
def emailFormatSpec (s : String) : Prop :=
  ∃ l d t : List Char,
    s.data = l ++ '@' :: (d ++ '.' :: t) ∧ l ≠ [] ∧ d ≠ [] ∧ t ≠ []

/-- A contact record of the expected shape: a JSON object whose `tags`
field, when present, is a list. -/
def contactWellFormed : Json → Bool
  | .obj fields =>
      match fields.lookup "tags" with
      | some (.arr _) => true
      | some _ => false
      | none => true
  | _ => false

/-- A lookup-response body of the expected shape: a JSON object whose
`contacts` field, when present, is a list of well-formed contacts. -/
def lookupBodyWellFormed : Json → Bool
  | .obj fields =>
      match fields.lookup "contacts" with
      | some (.arr cs) => cs.all contactWellFormed
      | some _ => false
      | none => true
  | _ => false

/-- The tag list of a contact record (empty when absent). -/
def contactTags : Json → List Json
  | .obj fields =>
      match fields.lookup "tags" with
      | some (.arr ts) => ts
      | _ => []
  | _ => []

/-- From the spec's words (claim C3): the booked-marker tag
`livekit_appointment_booked` is present among some queried record's tags. -/
def specBookedTagPresent (body : Json) : Bool :=
  match body with
  | .obj fields =>
      match fields.lookup "contacts" with
      | some (.arr cs) =>
          cs.any fun c => (contactTags c).any (pyEqStr "livekit_appointment_booked")
      | _ => false
  | _ => false

/-- The HTTP outcomes entirely absorbed by the source's
`except requests.RequestException` handlers: a network failure, a 4xx/5xx
status (`raise_for_status`), or a body that is not valid JSON
(`response.json()` raising `JSONDecodeError`). -/
def catchesAll : HttpOutcome → Bool
  | .networkError => true
  | .response _ none => true
  | .response st (some _) => decide (400 ≤ st ∧ st < 600)

/-- A concrete configuration used by the concrete-input theorems. -/
def sampleConfig : Config :=
  { apiToken := "token"
    crmCandidateEndpoint := "https://crm.example/candidates"
    interviewSlotsEndpoint := "https://crm.example/slots"
    webhookUrl := "https://hooks.example/book"
    crmContactLookupEndpoint := "https://crm.example/lookup" }

/-- The stub response body of the spec's Scenario A:
`{"candidate":{"id":"42"}}`. -/
def scenarioABody : Json :=
  .obj [("candidate", .obj [("id", .str "42")])]

/-- Did the tool run resolve to a result string for its caller (as opposed
to raising an uncaught exception)? -/
def returnsResult (r : ToolRun) : Bool :=
  match r.result with
  | .ok _ => true
  | .error _ => false

/-- A contact record that is a JSON object with no `tags` field at all
(claim C9's "contact entries lack a `tags` key"). -/
def contactLacksTags : Json → Bool
  | .obj fields => (fields.lookup "tags").isNone
  | _ => false

/-!
## Regex decomposition lemmas
-/

theorem headNonAt_ne_nil {rest : List Char} (h : headNonAt rest = true) : rest ≠ [] := by
  cases rest with
  | nil => simp [headNonAt] at h
  | cons c cs => simp

theorem matchTail_decomp :
    ∀ (cs : List Char) (seen : Bool), matchTail seen cs = true →
      ∃ m t, cs = m ++ '.' :: t ∧ t ≠ [] ∧ (seen = false → m ≠ []) := by
  intro cs
  induction cs with
  | nil => intro seen h; simp [matchTail] at h
  | cons c rest ih =>
      intro seen h
      rw [matchTail] at h
      by_cases hc : c = '.'
      · rw [if_pos hc] at h
        rcases Bool.or_eq_true_iff.mp h with h1 | h2
        · rcases Bool.and_eq_true_iff.mp h1 with ⟨hs, hh⟩
          refine ⟨[], rest, by simp [hc], headNonAt_ne_nil hh, ?_⟩
          intro hfalse
          rw [hfalse] at hs
          exact absurd hs (by simp)
        · rcases ih true h2 with ⟨m, t, heq, ht, _⟩
          exact ⟨c :: m, t, by simp [heq], ht, fun _ => by simp⟩
      · rw [if_neg hc] at h
        rcases Bool.and_eq_true_iff.mp h with ⟨_, h2⟩
        rcases ih true h2 with ⟨m, t, heq, ht, _⟩
        exact ⟨c :: m, t, by simp [heq], ht, fun _ => by simp⟩

theorem matchLocal_decomp :
    ∀ (cs : List Char) (seen : Bool), matchLocal seen cs = true →
      ∃ l r, cs = l ++ '@' :: r ∧ (seen = false → l ≠ []) ∧ matchTail false r = true := by
  intro cs
  induction cs with
  | nil => intro seen h; simp [matchLocal] at h
  | cons c rest ih =>
      intro seen h
      rw [matchLocal] at h
      by_cases hc : c = '@'
      · rw [if_pos hc] at h
        rcases Bool.and_eq_true_iff.mp h with ⟨hs, ht⟩
        refine ⟨[], rest, by simp [hc], ?_, ht⟩
        intro hfalse
        rw [hfalse] at hs
        exact absurd hs (by simp)
      · rw [if_neg hc] at h
        rcases ih true h with ⟨l, r, heq, _, ht⟩
        exact ⟨c :: l, r, by simp [heq], fun _ => by simp, ht⟩

/-- Any string the source regex accepts decomposes as the spec's
`local@domain.tld` format. -/
theorem reMatchEmail_implies_format {s : String} (h : reMatchEmail s = true) :
    emailFormatSpec s := by
  rw [reMatchEmail] at h
  rcases matchLocal_decomp s.data false h with ⟨l, r, heq, hl, ht⟩
  rcases matchTail_decomp r false ht with ⟨m, t, heqr, htt, hm⟩
  exact ⟨l, m, t, by rw [heq, heqr], hl rfl, hm rfl, htt⟩

/-- A string of the spec's email format contains an `'@'`. -/
theorem emailFormatSpec_mem_at {s : String} (h : emailFormatSpec s) :
    '@' ∈ s.data := by
  rcases h with ⟨l, d, t, heq, _, _, _⟩
  rw [heq]
  exact List.mem_append_right l (List.mem_cons_self _ _)

/-!
## Claim theorems
-/

/-- Claim C2: for every input string `email` that does not match the format
local-part `'@'` domain `'.'` tld, `book_appointment` returns the
"email address seems incorrect" failure message and performs zero network
I/O (no HTTP request is issued). -/
theorem book_appointment_rejects_bad_email
    (cfg : Config) (email name : String) (http : HttpOutcome)
    (h : ¬ emailFormatSpec email) :
    book_appointment cfg email name http =
      { result := .ok "The email address seems incorrect. Please provide a valid one."
        requests := [] } := by
  have hm : reMatchEmail email = false := by
    cases hr : reMatchEmail email
    · rfl
    · exact absurd (reMatchEmail_implies_format hr) h
  rw [book_appointment, hm]
  rfl

/-- Witness for claim C2 at the spec's Scenario B input `"bad-email"`. -/
theorem book_appointment_rejects_bad_email_witness :
    ¬ emailFormatSpec "bad-email" ∧
      book_appointment sampleConfig "bad-email" "Jo" HttpOutcome.networkError =
        { result := .ok "The email address seems incorrect. Please provide a valid one."
          requests := [] } :=
  have hn : ¬ emailFormatSpec "bad-email" := fun h =>
    absurd (emailFormatSpec_mem_at h) (by decide)
  ⟨hn, book_appointment_rejects_bad_email sampleConfig "bad-email" "Jo"
    HttpOutcome.networkError hn⟩

/-- Claim C1 counterexample: a 2xx response whose body is valid JSON but
lacks the `candidate` key makes `save_candidate_details` raise an uncaught
`KeyError` instead of returning a result string (the source catches only
`requests.RequestException`). -/
theorem save_candidate_details_raises_on_malformed_2xx_body :
    returnsResult (save_candidate_details sampleConfig "a@b.com" "Jo"
        (HttpOutcome.response 200 (some (Json.obj [])))) = false ∧
      (save_candidate_details sampleConfig "a@b.com" "Jo"
        (HttpOutcome.response 200 (some (Json.obj [])))).result
        = Except.error (PyError.keyError "candidate") :=
  ⟨rfl, rfl⟩

/-- Claim C1 (amended): every tool coroutine returns a result string to its
caller, without raising, when the HTTP request fails at the network level,
the response status is 4xx/5xx, or the body is not valid JSON (the cases the
`except requests.RequestException` handlers absorb); `book_appointment` and
`schedule_interview`, which never parse the response body, never raise at
all.  (A 2xx response whose valid-JSON body lacks the expected fields can
still raise from `save_candidate_details` and `check_appointment_status`:
see the counterexample.) -/
theorem tools_never_raise_on_caught_errors :
    ∀ (cfg : Config) (email name slot : String) (http : HttpOutcome),
      (catchesAll http = true →
        returnsResult (save_candidate_details cfg email name http) = true ∧
        returnsResult (check_appointment_status cfg email http) = true) ∧
      returnsResult (book_appointment cfg email name http) = true ∧
      returnsResult (schedule_interview cfg email slot http) = true := by
  intro cfg email name slot http
  refine ⟨?_, ?_, ?_⟩
  · intro hc
    cases http with
    | networkError => exact ⟨rfl, rfl⟩
    | response st body =>
        cases body with
        | none =>
            constructor
            · by_cases h4 : 400 ≤ st ∧ st < 600 <;>
                simp [save_candidate_details, returnsResult, h4]
            · by_cases h4 : 400 ≤ st ∧ st < 600 <;>
                simp [check_appointment_status, returnsResult, h4]
        | some j =>
            have h4 : 400 ≤ st ∧ st < 600 := by simpa [catchesAll] using hc
            exact ⟨by simp [save_candidate_details, returnsResult, h4],
              by simp [check_appointment_status, returnsResult, h4]⟩
  · by_cases hm : reMatchEmail email = false
    · simp [book_appointment, hm, returnsResult]
    · cases http with
      | networkError => simp [book_appointment, hm, returnsResult]
      | response st body =>
          by_cases h4 : 400 ≤ st ∧ st < 600 <;>
            simp [book_appointment, hm, h4, returnsResult]
  · cases http with
    | networkError => rfl
    | response st body =>
        by_cases h4 : 400 ≤ st ∧ st < 600 <;>
          simp [schedule_interview, h4, returnsResult]

/-- Witness for the amended claim C1 at a concrete network failure. -/
theorem tools_never_raise_on_caught_errors_witness :
    returnsResult (save_candidate_details sampleConfig "a@b.com" "Jo"
        HttpOutcome.networkError) = true ∧
      returnsResult (check_appointment_status sampleConfig "a@b.com"
        HttpOutcome.networkError) = true ∧
      returnsResult (book_appointment sampleConfig "a@b.com" "Jo"
        HttpOutcome.networkError) = true ∧
      returnsResult (schedule_interview sampleConfig "a@b.com"
        "2025-01-18T10:30:00+00:00" HttpOutcome.networkError) = true :=
  have h := tools_never_raise_on_caught_errors sampleConfig "a@b.com" "Jo"
    "2025-01-18T10:30:00+00:00" HttpOutcome.networkError
  ⟨(h.1 rfl).1, (h.1 rfl).2, h.2.1, h.2.2⟩

/-- Claim C4 counterexample: a completed `book_appointment` call whose result
is the email-validation failure message (a failed call, `outcome=failure`
under the spec's classification) still gets a follow-up status check
scheduled, because `on_function_calls_finished` only looks at the `email`
argument and never at the result. -/
theorem follow_up_scheduled_for_failed_call :
    classify "The email address seems incorrect. Please provide a valid one."
        = Outcome.failure ∧
      (on_function_calls_finished
        [{ arguments := [("email", "bad@"), ("name", "Jo")]
           result := "The email address seems incorrect. Please provide a valid one." }]).followUpEmail
        = some "bad@" :=
  ⟨rfl, rfl⟩

/-- Claim C4 (amended): a follow-up status check is scheduled exactly when
the FIRST completed tool call's arguments contain a truthy `email` value —
regardless of the call's outcome, success or failure (the handler never
consults results); with no completed calls nothing is scheduled. -/
theorem follow_up_depends_only_on_email_argument :
    ∀ (cf : CalledFunction) (rest : List CalledFunction) (r : String),
      (on_function_calls_finished (cf :: rest)).followUpEmail
          = truthy (argGet cf.arguments "email") ∧
        (on_function_calls_finished
            ({ arguments := cf.arguments, result := r } :: rest)).followUpEmail
          = (on_function_calls_finished (cf :: rest)).followUpEmail ∧
        (on_function_calls_finished []).followUpEmail = none := by
  intro cf rest r
  exact ⟨rfl, rfl, rfl⟩

/-- Claim C5 counterexample: scheduling a follow-up, then closing the
session (room no longer connected), leaves the follow-up pending — nothing
cancels it — and twenty seconds later it fires anyway, executing the status
check after teardown. -/
theorem follow_up_fires_after_session_closed :
    (runSession [.schedule "a@b.com", .disconnect]).connected = false ∧
      (runSession [.schedule "a@b.com", .disconnect]).pending ≠ [] ∧
      (runSession ([.schedule "a@b.com", .disconnect]
          ++ List.replicate 20 .tick)).fired = ["a@b.com"] := by
  refine ⟨rfl, ?_, rfl⟩
  decide

/-- A single pending follow-up with `n+1` seconds left fires after exactly
`n+1` ticks, whatever the connection state: the task body never consults it. -/
theorem tick_fires :
    ∀ (n : Nat) (c : Bool) (f : List String) (email : String),
      (List.replicate (n+1) SessionEvent.tick).foldl sessionStep
          { connected := c, pending := [{ email := email, remaining := n+1 }], fired := f }
        = { connected := c, pending := [], fired := f ++ [email] } := by
  intro n
  induction n with
  | zero => intro c f email; rfl
  | succ m ih =>
      intro c f email
      rw [List.replicate_succ, List.foldl_cons]
      have hstep :
          sessionStep
              { connected := c, pending := [{ email := email, remaining := m+2 }], fired := f }
              .tick
            = { connected := c, pending := [{ email := email, remaining := m+1 }], fired := f } := by
        simp [sessionStep]
      rw [hstep]
      exact ih c f email

/-- Claim C5 (amended): the session's transition out of the connected state
cancels nothing — the pending follow-ups are untouched (the source keeps no
registry of its fire-and-forget tasks and registers no teardown handler) —
and a scheduled follow-up fires after its 20-second delay even when the
session was closed immediately after scheduling. -/
theorem disconnect_cancels_nothing :
    ∀ (s : SessionState) (email : String),
      (sessionStep s .disconnect).pending = s.pending ∧
        (runSession ([.schedule email, .disconnect]
            ++ List.replicate 20 .tick)).connected = false ∧
        (runSession ([.schedule email, .disconnect]
            ++ List.replicate 20 .tick)).fired = [email] := by
  intro s email
  have h20 : runSession ([.schedule email, .disconnect] ++ List.replicate 20 .tick)
      = { connected := false, pending := [], fired := [email] } := by
    rw [runSession, List.foldl_append]
    have hbase : [SessionEvent.schedule email, SessionEvent.disconnect].foldl
        sessionStep initialSession
        = { connected := false, pending := [{ email := email, remaining := 20 }], fired := [] } := rfl
    rw [hbase]
    have h := tick_fires 19 false [] email
    simpa using h
  exact ⟨rfl, by rw [h20], by rw [h20]⟩

/-- Claim C6 counterexample: `book_appointment` issues its webhook POST with
no timeout at all (the source passes no `timeout=` argument to
`requests.post`, i.e. the library default of waiting forever), so the call
is not performed with a bounded timeout. -/
theorem book_appointment_request_has_no_timeout :
    ((book_appointment sampleConfig "a@b.com" "Jo"
        HttpOutcome.networkError).requests.map HttpRequest.timeout) = [none] ∧
      (book_appointment sampleConfig "a@b.com" "Jo"
        HttpOutcome.networkError).requests.length = 1 :=
  ⟨rfl, rfl⟩

/-- Claim C6 (amended): every external HTTP call made by any of the four
tools is issued WITHOUT a timeout (`requests`' default of no deadline), so a
tool invocation may await the network indefinitely. -/
theorem all_tool_requests_without_timeout :
    ∀ (cfg : Config) (email name slot : String) (http : HttpOutcome),
      ((save_candidate_details cfg email name http).requests.all
          fun r => r.timeout.isNone) = true ∧
        ((schedule_interview cfg email slot http).requests.all
          fun r => r.timeout.isNone) = true ∧
        ((book_appointment cfg email name http).requests.all
          fun r => r.timeout.isNone) = true ∧
        ((check_appointment_status cfg email http).requests.all
          fun r => r.timeout.isNone) = true := by
  intro cfg email name slot http
  refine ⟨?_, ?_, ?_, ?_⟩
  · cases http with
    | networkError => rfl
    | response st body =>
        by_cases h4 : 400 ≤ st ∧ st < 600
        · cases body <;> simp [save_candidate_details, h4]
        · cases body with
          | none => simp [save_candidate_details, h4]
          | some j =>
              cases hj : jsonSubscript j "candidate" with
              | error e => simp [save_candidate_details, h4, hj]
              | ok c =>
                  cases hid : jsonSubscript c "id" <;>
                    simp [save_candidate_details, h4, hj, hid]
  · cases http with
    | networkError => rfl
    | response st body =>
        by_cases h4 : 400 ≤ st ∧ st < 600 <;> simp [schedule_interview, h4]
  · by_cases hm : reMatchEmail email = false
    · simp [book_appointment, hm]
    · cases http with
      | networkError => simp [book_appointment, hm]
      | response st body =>
          by_cases h4 : 400 ≤ st ∧ st < 600 <;> simp [book_appointment, hm, h4]
  · cases http with
    | networkError => rfl
    | response st body =>
        by_cases h4 : 400 ≤ st ∧ st < 600
        · cases body <;> simp [check_appointment_status, h4]
        · cases body <;> simp [check_appointment_status, h4]

/-- Scanning a list of well-formed contacts yields the booked message when
some contact's tag list contains the marker tag, and the not-booked message
otherwise — never an error. -/
theorem scanContacts_wellFormed :
    ∀ (cs : List Json), cs.all contactWellFormed = true →
      scanContacts cs
        = .ok (if cs.any (fun c => (contactTags c).any (pyEqStr "livekit_appointment_booked"))
            then "The user has successfully booked the appointment."
            else "The user has not yet booked an appointment. Please offer him help") := by
  intro cs
  induction cs with
  | nil => intro _; rfl
  | cons c rest ih =>
      intro h
      rw [List.all_cons, Bool.and_eq_true] at h
      obtain ⟨hc, hrest⟩ := h
      cases c with
      | obj fields =>
          cases ht : fields.lookup "tags" with
          | none =>
              have hr := ih hrest
              simp [scanContacts, jsonGet, ht, pyMem, contactTags, hr, List.any_cons]
          | some tv =>
              cases tv with
              | arr ts =>
                  by_cases hb : ts.any (pyEqStr "livekit_appointment_booked") = true
                  · simp [scanContacts, jsonGet, ht, pyMem, hb, contactTags, List.any_cons]
                  · have hb' : ts.any (pyEqStr "livekit_appointment_booked") = false := by
                      simpa using hb
                    have hr := ih hrest
                    simp [scanContacts, jsonGet, ht, pyMem, hb', contactTags, hr, List.any_cons]
              | null => simp [contactWellFormed, ht] at hc
              | bool b => simp [contactWellFormed, ht] at hc
              | num n => simp [contactWellFormed, ht] at hc
              | str s => simp [contactWellFormed, ht] at hc
              | obj fs => simp [contactWellFormed, ht] at hc
      | null => simp [contactWellFormed] at hc
      | bool b => simp [contactWellFormed] at hc
      | num n => simp [contactWellFormed] at hc
      | str s => simp [contactWellFormed] at hc
      | arr es => simp [contactWellFormed] at hc

/-- Claim C3: for every 2xx lookup response of the expected shape,
`check_appointment_status` returns the "successfully booked" message if and
only if the `livekit_appointment_booked` marker tag is present among some
queried record's tags, and otherwise returns the "not yet booked, offer
help" message; the call is read-only — exactly one GET request with no
request body. -/
theorem check_appointment_status_classifies
    (cfg : Config) (email : String) (st : Nat) (body : Json)
    (h2 : 200 ≤ st) (h3 : st < 300) (hwf : lookupBodyWellFormed body = true) :
    ((check_appointment_status cfg email (.response st (some body))).result
        = .ok "The user has successfully booked the appointment."
      ↔ specBookedTagPresent body = true) ∧
    (specBookedTagPresent body = false →
      (check_appointment_status cfg email (.response st (some body))).result
        = .ok "The user has not yet booked an appointment. Please offer him help") ∧
    ((check_appointment_status cfg email
        (.response st (some body))).requests.map HttpRequest.method = [Method.get]) ∧
    ((check_appointment_status cfg email
        (.response st (some body))).requests.map HttpRequest.jsonBody = [none]) := by
  have h4 : ¬ (400 ≤ st ∧ st < 600) := by omega
  have hreq : check_appointment_status cfg email (.response st (some body))
      = { result := checkContacts body
          requests := [{ method := .get
                         url := cfg.crmContactLookupEndpoint ++ "?email=" ++ email
                         bearerToken := some cfg.apiToken
                         timeout := none
                         jsonBody := none }] } := by
    simp [check_appointment_status, h4]
  rw [hreq]
  have hne : ("The user has not yet booked an appointment. Please offer him help" : String)
      ≠ "The user has successfully booked the appointment." := by decide
  refine ⟨?_, ?_, rfl, rfl⟩ <;>
  · cases body with
    | obj fields =>
        cases hcon : fields.lookup "contacts" with
        | none =>
            simp [checkContacts, jsonGet, hcon, pyIter, scanContacts,
              specBookedTagPresent, hne]
        | some cv =>
            cases cv with
            | arr cs =>
                have hall : cs.all contactWellFormed = true := by
                  simpa [lookupBodyWellFormed, hcon] using hwf
                have hscan := scanContacts_wellFormed cs hall
                by_cases hb : cs.any
                    (fun c => (contactTags c).any (pyEqStr "livekit_appointment_booked")) = true
                · simp [checkContacts, jsonGet, hcon, pyIter, hscan, hb,
                    specBookedTagPresent]
                · have hb' : cs.any
                      (fun c => (contactTags c).any (pyEqStr "livekit_appointment_booked")) = false := by
                    simpa using hb
                  simp [checkContacts, jsonGet, hcon, pyIter, hscan, hb',
                    specBookedTagPresent, hne]
            | null => simp [lookupBodyWellFormed, hcon] at hwf
            | bool b => simp [lookupBodyWellFormed, hcon] at hwf
            | num n => simp [lookupBodyWellFormed, hcon] at hwf
            | str s => simp [lookupBodyWellFormed, hcon] at hwf
            | obj fs => simp [lookupBodyWellFormed, hcon] at hwf
    | null => simp [lookupBodyWellFormed] at hwf
    | bool b => simp [lookupBodyWellFormed] at hwf
    | num n => simp [lookupBodyWellFormed] at hwf
    | str s => simp [lookupBodyWellFormed] at hwf
    | arr es => simp [lookupBodyWellFormed] at hwf

/-- Witness for claim C3: the spec's Scenario D stub bodies, one whose only
contact carries the marker tag and one whose contact does not. -/
theorem check_appointment_status_classifies_witness :
    (200 ≤ 200 ∧ 200 < 300 ∧
      lookupBodyWellFormed (.obj [("contacts", .arr
        [.obj [("tags", .arr [.str "livekit_appointment_booked"])]])]) = true) ∧
    (check_appointment_status sampleConfig "a@b.com" (.response 200 (some
        (.obj [("contacts", .arr
          [.obj [("tags", .arr [.str "livekit_appointment_booked"])]])])))).result
      = .ok "The user has successfully booked the appointment." ∧
    (check_appointment_status sampleConfig "a@b.com" (.response 200 (some
        (.obj [("contacts", .arr [.obj [("tags", .arr [.str "other"])]])])))).result
      = .ok "The user has not yet booked an appointment. Please offer him help" :=
  ⟨⟨by decide, by decide, rfl⟩,
    ((check_appointment_status_classifies sampleConfig "a@b.com" 200
        (.obj [("contacts", .arr
          [.obj [("tags", .arr [.str "livekit_appointment_booked"])]])])
        (by decide) (by decide) rfl).1).mpr rfl,
    ((check_appointment_status_classifies sampleConfig "a@b.com" 200
        (.obj [("contacts", .arr [.obj [("tags", .arr [.str "other"])]])])
        (by decide) (by decide) rfl).2.1) rfl⟩

/-- A contact list with no `tags` keys is well-formed and carries no marker
tag anywhere. -/
theorem lacksTags_wellFormed :
    ∀ (cs : List Json), cs.all contactLacksTags = true →
      cs.all contactWellFormed = true ∧
        cs.any (fun c => (contactTags c).any (pyEqStr "livekit_appointment_booked")) = false := by
  intro cs
  induction cs with
  | nil => intro _; exact ⟨rfl, rfl⟩
  | cons c rest ih =>
      intro h
      rw [List.all_cons, Bool.and_eq_true] at h
      obtain ⟨hc, hrest⟩ := h
      obtain ⟨h1, h2⟩ := ih hrest
      cases c with
      | obj fields =>
          cases ht : fields.lookup "tags" with
          | none =>
              constructor
              · simp [List.all_cons, contactWellFormed, ht, h1]
              · rw [List.any_cons]
                have hhd : (contactTags (Json.obj fields)).any
                    (pyEqStr "livekit_appointment_booked") = false := by
                  simp [contactTags, ht]
                rw [hhd, h2]
                rfl
          | some tv => simp [contactLacksTags, ht] at hc
      | null => simp [contactLacksTags] at hc
      | bool b => simp [contactLacksTags] at hc
      | num n => simp [contactLacksTags] at hc
      | str s => simp [contactLacksTags] at hc
      | arr es => simp [contactLacksTags] at hc

/-- Claim C9: a 2xx lookup response whose JSON object body lacks the
`contacts` key, or whose contact entries are objects lacking a `tags` key,
does not make `check_appointment_status` error: the missing field acts as an
empty list and the tool returns the "not yet booked" message. -/
theorem check_appointment_status_tolerates_missing_fields
    (cfg : Config) (email : String) (st : Nat)
    (fields : List (String × Json)) (cs : List Json)
    (h2 : 200 ≤ st) (h3 : st < 300) :
    (fields.lookup "contacts" = none →
      (check_appointment_status cfg email (.response st (some (.obj fields)))).result
        = .ok "The user has not yet booked an appointment. Please offer him help") ∧
    (fields.lookup "contacts" = some (.arr cs) →
      cs.all contactLacksTags = true →
      (check_appointment_status cfg email (.response st (some (.obj fields)))).result
        = .ok "The user has not yet booked an appointment. Please offer him help") := by
  have h4 : ¬ (400 ≤ st ∧ st < 600) := by omega
  constructor
  · intro hcon
    simp [check_appointment_status, h4, checkContacts, jsonGet, hcon, pyIter, scanContacts]
  · intro hcon hlack
    obtain ⟨hwf, hnone⟩ := lacksTags_wellFormed cs hlack
    have hscan := scanContacts_wellFormed cs hwf
    simp [check_appointment_status, h4, checkContacts, jsonGet, hcon, pyIter, hscan, hnone]

/-- Witness for claim C9: a 2xx body `{}` and a 2xx body whose only contact
is `{"name":"Jo"}`. -/
theorem check_appointment_status_tolerates_missing_fields_witness :
    (check_appointment_status sampleConfig "a@b.com"
        (.response 200 (some (.obj [])))).result
      = .ok "The user has not yet booked an appointment. Please offer him help" ∧
      (check_appointment_status sampleConfig "a@b.com"
          (.response 200 (some (.obj [("contacts", .arr [.obj [("name", .str "Jo")]])])))).result
        = .ok "The user has not yet booked an appointment. Please offer him help" :=
  ⟨(check_appointment_status_tolerates_missing_fields sampleConfig "a@b.com" 200
      [] [] (by decide) (by decide)).1 rfl,
    (check_appointment_status_tolerates_missing_fields sampleConfig "a@b.com" 200
      [("contacts", .arr [.obj [("name", .str "Jo")]])] [.obj [("name", .str "Jo")]]
      (by decide) (by decide)).2 rfl rfl⟩

/-- Claim C10: for every 2xx webhook response, whatever the body (even
absent or non-JSON), `book_appointment` returns the success message, that
message contains the exact email string the caller provided, and the run is
entirely independent of the response body (the body is never parsed). -/
theorem book_appointment_ignores_2xx_body
    (cfg : Config) (email name : String) (st : Nat) (b b2 : Option Json)
    (hm : reMatchEmail email = true) (h2 : 200 ≤ st) (h3 : st < 300) :
    (book_appointment cfg email name (.response st b)).result
        = .ok ("Appointment booking link sent to " ++ email ++ ". Please check your email.") ∧
      email.data <:+:
        ("Appointment booking link sent to " ++ email ++ ". Please check your email.").data ∧
      book_appointment cfg email name (.response st b)
        = book_appointment cfg email name (.response st b2) := by
  have h4 : ¬ (400 ≤ st ∧ st < 600) := by omega
  have hm' : ¬ (reMatchEmail email = false) := by simp [hm]
  refine ⟨by simp [book_appointment, hm', h4], ?_, by simp [book_appointment, hm', h4]⟩
  exact ⟨"Appointment booking link sent to ".data, ". Please check your email.".data,
    by simp [String.data_append]⟩

/-- Witness for claim C10 at `email = "a@b.com"`, status 200, two different
bodies. -/
theorem book_appointment_ignores_2xx_body_witness :
    (reMatchEmail "a@b.com" = true ∧ 200 ≤ 200 ∧ 200 < 300) ∧
      (book_appointment sampleConfig "a@b.com" "Jo" (.response 200 none)).result
          = .ok "Appointment booking link sent to a@b.com. Please check your email." ∧
        book_appointment sampleConfig "a@b.com" "Jo" (.response 200 none)
          = book_appointment sampleConfig "a@b.com" "Jo" (.response 200 (some .null)) :=
  have h := book_appointment_ignores_2xx_body sampleConfig "a@b.com" "Jo" 200
    none (some .null) (by decide) (by decide) (by decide)
  ⟨⟨by decide, by decide, by decide⟩, h.1, h.2.2⟩

/-- Claim C7: a tool call request missing a required parameter of its tool's
schema is rejected by `execute` with `outcome=failure` and zero external
I/O — no HTTP request is attempted. -/
theorem execute_missing_required_param
    (cfg : Config) (req : ToolCallRequest) (http : HttpOutcome)
    (ps : List String) (p : String)
    (h1 : toolRequiredParams req.toolName = some ps) (h2 : p ∈ ps)
    (h3 : req.arguments.lookup p = none) :
    (execute cfg req http).1.outcome = Outcome.failure ∧
      (execute cfg req http).2 = [] := by
  have hall : (ps.all fun q => (req.arguments.lookup q).isSome) = false := by
    cases hal : ps.all fun q => (req.arguments.lookup q).isSome
    · rfl
    · have := List.all_eq_true.mp hal p h2
      rw [h3] at this
      simp at this
  simp [execute, h1, hall]

/-- Witness for claim C7: `book_appointment` requested without its required
`email` argument. -/
theorem execute_missing_required_param_witness :
    (toolRequiredParams "book_appointment" = some ["email", "name"] ∧
      "email" ∈ ["email", "name"] ∧
      ([("name", "Jo")] : List (String × String)).lookup "email" = none) ∧
      (execute sampleConfig
          { toolName := "book_appointment", arguments := [("name", "Jo")] }
          HttpOutcome.networkError).1.outcome = Outcome.failure ∧
      (execute sampleConfig
          { toolName := "book_appointment", arguments := [("name", "Jo")] }
          HttpOutcome.networkError).2 = [] :=
  have h := execute_missing_required_param sampleConfig
    { toolName := "book_appointment", arguments := [("name", "Jo")] }
    HttpOutcome.networkError ["email", "name"] "email" rfl (by decide) rfl
  ⟨⟨rfl, by decide, rfl⟩, h.1, h.2⟩

/-- Claim C8 (the spec's Scenario A): calling the save-candidate tool with
`{email:"a@b.com", name:"Jo"}` against a 2xx response with body
`{"candidate":{"id":"42"}}` yields a success result whose message contains
`"42"`. -/
theorem scenario_a_success :
    (execute sampleConfig
        { toolName := "save_candidate_details"
          arguments := [("email", "a@b.com"), ("name", "Jo")] }
        (.response 200 (some scenarioABody))).1
      = { toolName := "save_candidate_details"
          outcome := .success
          message := "Candidate details saved with ID: 42." } ∧
      (save_candidate_details sampleConfig "a@b.com" "Jo"
        (.response 200 (some scenarioABody))).result
        = .ok "Candidate details saved with ID: 42." ∧
      "42".data <:+: "Candidate details saved with ID: 42.".data :=
  ⟨rfl, rfl, by decide⟩
